import Mathlib

set_option linter.unusedVariables false

/-!
Verification development for the favicon generator script
(src/bck/create_favicon.py).  The script draws a 16x16 RGBA icon with PIL
ImageDraw primitives, derives a 32x32 version by LANCZOS resampling, encodes
an ICO container and two PNG files, and writes them to disk, with a fallback
message for a missing imaging library.

The embedding below models the script and the parts of the Pillow library it
calls (rasterization of primitives, the ICO save path, PNG save) as pure
executable Lean functions.  Rasterization of ellipse boundaries, lines and
arcs in Pillow uses floating-point interpolation; it is modelled here by
integer approximations.  No theorem in this file depends on exactly which
pixels a primitive covers, only on the structure of the construction (order
of primitives, the colors used, dimensions, provenance of derived images,
and the control flow of the main block).
-/

namespace Favicon

/-- An RGBA color with 8-bit channels, as PIL represents fills. -/
structure RGBA where
  r : Nat
  g : Nat
  b : Nat
  a : Nat
deriving DecidableEq, BEq, Repr

/-- The kind of a drawing primitive, used to state the order of operations
in create_favicon. -/
inductive PrimKind
  | rectangle
  | ellipse
  | line
  | arc
deriving DecidableEq, Repr

/-- One PIL ImageDraw call of the script: a filled rectangle, a filled
ellipse, a one-pixel-wide line, or an elliptical arc with start and end
angles in degrees. -/
inductive Primitive
  | rectangle (x0 y0 x1 y1 : Nat) (fill : RGBA)
  | ellipse (x0 y0 x1 y1 : Nat) (fill : RGBA)
  | line (x0 y0 x1 y1 : Nat) (fill : RGBA)
  | arc (x0 y0 x1 y1 aStart aEnd : Nat) (fill : RGBA)
deriving DecidableEq, Repr

/-- The fill color of a primitive. -/
def Primitive.fill : Primitive → RGBA
  | .rectangle _ _ _ _ c => c
  | .ellipse _ _ _ _ c => c
  | .line _ _ _ _ c => c
  | .arc _ _ _ _ _ _ c => c

/-- The kind of a primitive. -/
def Primitive.kind : Primitive → PrimKind
  | .rectangle .. => PrimKind.rectangle
  | .ellipse .. => PrimKind.ellipse
  | .line .. => PrimKind.line
  | .arc .. => PrimKind.arc

/-- Models PIL draw.rectangle coverage: the bounding box is inclusive on
both corners. -/
def coversRect (x0 y0 x1 y1 x y : Nat) : Bool :=
  decide (x0 ≤ x ∧ x ≤ x1 ∧ y0 ≤ y ∧ y ≤ y1)

/-- Models PIL draw.ellipse coverage: pixels inside the ellipse inscribed in
the bounding box.  The test uses doubled coordinates so the half-integer
center is handled in integer arithmetic. -/
def coversEllipse (x0 y0 x1 y1 x y : Nat) : Bool :=
  let a : Int := (x1 : Int) - (x0 : Int)
  let b : Int := (y1 : Int) - (y0 : Int)
  let dx : Int := 2 * (x : Int) - ((x0 : Int) + (x1 : Int))
  let dy : Int := 2 * (y : Int) - ((y0 : Int) + (y1 : Int))
  decide (dx ^ 2 * b ^ 2 + dy ^ 2 * a ^ 2 ≤ a ^ 2 * b ^ 2)

/-- Division rounding to the nearest integer (floor of num/den + 1/2),
for a positive denominator. -/
def roundDiv (num den : Int) : Int :=
  Int.fdiv (2 * num + den) (2 * den)

/-- Models PIL draw.line coverage for width-1 lines: a digital
differential-analyzer walk from the first endpoint to the second. -/
def coversLine (x0 y0 x1 y1 x y : Nat) : Bool :=
  let dx : Int := (x1 : Int) - (x0 : Int)
  let dy : Int := (y1 : Int) - (y0 : Int)
  let steps : Nat := max dx.natAbs dy.natAbs
  if steps = 0 then decide (x = x0 ∧ y = y0)
  else
    (List.range (steps + 1)).any fun i =>
      decide ((x : Int) = (x0 : Int) + roundDiv ((i : Int) * dx) (steps : Int) ∧
              (y : Int) = (y0 : Int) + roundDiv ((i : Int) * dy) (steps : Int))

/-- Angular restriction of an arc.  PIL measures angles from 3 o'clock,
increasing clockwise in screen coordinates (y grows downward), so the range
0..90 is the quadrant right-and-below the center and 90..180 the quadrant
left-and-below.  Only the two ranges the script uses are interpreted. -/
def inAngleRange (aStart aEnd : Nat) (dx dy : Int) : Bool :=
  if aStart = 0 ∧ aEnd = 90 then decide (0 ≤ dx ∧ 0 ≤ dy)
  else if aStart = 90 ∧ aEnd = 180 then decide (dx ≤ 0 ∧ 0 ≤ dy)
  else true

/-- Models PIL draw.arc coverage: pixels near the boundary of the inscribed
ellipse, restricted to the angle range.  The float trigonometry of the
library is approximated by an integer boundary band. -/
def coversArc (x0 y0 x1 y1 aStart aEnd x y : Nat) : Bool :=
  let a : Int := (x1 : Int) - (x0 : Int)
  let b : Int := (y1 : Int) - (y0 : Int)
  let dx : Int := 2 * (x : Int) - ((x0 : Int) + (x1 : Int))
  let dy : Int := 2 * (y : Int) - ((y0 : Int) + (y1 : Int))
  let v : Int := dx ^ 2 * b ^ 2 + dy ^ 2 * a ^ 2
  let r : Int := a ^ 2 * b ^ 2
  decide ((v - r).natAbs * 2 ≤ r.natAbs) && inAngleRange aStart aEnd dx dy

/-- Whether a primitive paints the pixel at (x, y). -/
def Primitive.covers : Primitive → Nat → Nat → Bool
  | .rectangle x0 y0 x1 y1 _, x, y => coversRect x0 y0 x1 y1 x y
  | .ellipse x0 y0 x1 y1 _, x, y => coversEllipse x0 y0 x1 y1 x y
  | .line x0 y0 x1 y1 _, x, y => coversLine x0 y0 x1 y1 x y
  | .arc x0 y0 x1 y1 s e _, x, y => coversArc x0 y0 x1 y1 s e x y

/-- Sequential painter-style application of the primitives to one pixel:
each primitive overwrites the pixel with its fill when it covers it,
later primitives taking precedence, starting from the background color. -/
def paint : List Primitive → RGBA → Nat → Nat → RGBA
  | [], bg, _, _ => bg
  | p :: ps, bg, x, y => paint ps (if p.covers x y then p.fill else bg) x y

/-- The resampling filters of PIL Image.Resampling that matter here.  The
script only ever uses LANCZOS. -/
inductive Filter
  | nearest
  | bilinear
  | lanczos
deriving DecidableEq, Repr

/-- An in-memory PIL image: either a canvas painted by a background fill and
an ordered list of primitives, or the result of resizing another image with
a given filter.  Keeping resizing as a constructor records the provenance of
derived images, exactly as the script builds them. -/
inductive Image
  | canvas (width height : Nat) (bg : RGBA) (prims : List Primitive)
  | resized (src : Image) (width height : Nat) (resample : Filter)
deriving DecidableEq, Repr

/-- Width in pixels. -/
def Image.width : Image → Nat
  | .canvas w _ _ _ => w
  | .resized _ w _ _ => w

/-- Height in pixels. -/
def Image.height : Image → Nat
  | .canvas _ h _ _ => h
  | .resized _ _ h _ => h

/-- The pixel at (x, y).  For a canvas this is the painter-style fold over
the primitives; for a resized image the LANCZOS convolution of the library
is abstracted to coordinate scaling (no theorem below depends on resampled
pixel values). -/
def Image.pix : Image → Nat → Nat → RGBA
  | .canvas _ _ bg prims, x, y => paint prims bg x y
  | .resized src w h _, x, y => src.pix (x * src.width / w) (y * src.height / h)

/-- The ten ImageDraw calls of create_favicon, in source order with the
literal coordinates and colors of the script. -/
def faviconPrims : List Primitive :=
  [ Primitive.rectangle 2 6 14 14 ⟨74, 85, 104, 255⟩,
    Primitive.ellipse 4 8 8 12 ⟨26, 32, 44, 255⟩,
    Primitive.ellipse 10 7 12 9 ⟨113, 128, 150, 255⟩,
    Primitive.ellipse 12 7 14 9 ⟨113, 128, 150, 255⟩,
    Primitive.ellipse 10 11 12 13 ⟨113, 128, 150, 255⟩,
    Primitive.ellipse 12 11 14 13 ⟨113, 128, 150, 255⟩,
    Primitive.line 3 6 2 2 ⟨113, 128, 150, 255⟩,
    Primitive.line 13 6 14 2 ⟨113, 128, 150, 255⟩,
    Primitive.arc 1 3 5 7 0 90 ⟨72, 187, 120, 255⟩,
    Primitive.arc 11 3 15 7 90 180 ⟨72, 187, 120, 255⟩ ]

/-- create_favicon of the script: a 16x16 RGBA canvas with background
(45, 55, 72, 255), painted by the ten primitives in order. -/
def create_favicon : Image :=
  Image.canvas 16 16 ⟨45, 55, 72, 255⟩ faviconPrims

/-- The five distinct RGBA constants that appear in create_favicon:
background slate, body gray, dark speaker, light knob/accent, and the green
of the two signal-wave arcs. -/
def codePalette5 : List RGBA :=
  [⟨45, 55, 72, 255⟩, ⟨74, 85, 104, 255⟩, ⟨26, 32, 44, 255⟩,
   ⟨113, 128, 150, 255⟩, ⟨72, 187, 120, 255⟩]

/-- Modelled from the spec: the four-color palette the spec names
(background slate, body gray, dark speaker, light knob/accent). -/
def specPalette4 : List RGBA :=
  [⟨45, 55, 72, 255⟩, ⟨74, 85, 104, 255⟩, ⟨26, 32, 44, 255⟩,
   ⟨113, 128, 150, 255⟩]

/-- Row-major RGBA bytes of an image, as the codecs serialize pixel data. -/
def pixelBytes (im : Image) : List Nat :=
  (List.range im.height).flatMap fun y =>
    (List.range im.width).flatMap fun x =>
      [(im.pix x y).r, (im.pix x y).g, (im.pix x y).b, (im.pix x y).a]

/-- Models PIL img.save with format PNG: a deterministic serialization of
the magic signature, the dimensions and the RGBA pixel data.  The DEFLATE
layer of the real codec is abstracted; what matters for the theorems is
that the bytes are a function of the image alone. -/
def encodePNG (im : Image) : List Nat :=
  137 :: 80 :: 78 :: 71 :: im.width :: im.height :: pixelBytes im

/-- Reads back the dimensions recorded by encodePNG. -/
def decodePngSize (bytes : List Nat) : Option (Nat × Nat) :=
  match bytes with
  | 137 :: 80 :: 78 :: 71 :: w :: h :: _ => some (w, h)
  | _ => none

/-- Lexicographic order on sizes, as Python sorted() orders tuples. -/
def sizeLe (s t : Nat × Nat) : Bool :=
  decide (s.1 < t.1 ∨ (s.1 = t.1 ∧ s.2 ≤ t.2))

/-- Insertion into a sorted duplicate-free list, skipping duplicates. -/
def insertSize (s : Nat × Nat) : List (Nat × Nat) → List (Nat × Nat)
  | [] => [s]
  | t :: ts =>
    if s = t then t :: ts
    else if sizeLe s t then s :: t :: ts
    else t :: insertSize s ts

/-- Models Python sorted(set(sizes)) of the Pillow ICO save path. -/
def sortedSizes (l : List (Nat × Nat)) : List (Nat × Nat) :=
  l.foldr insertSize []

/-- Models the size selection of Pillow IcoImagePlugin save: the requested
sizes are sorted and deduplicated, and every size whose width or height
exceeds the source image (or 256) is skipped. -/
def icoFrameSizes (im : Image) (sizes : List (Nat × Nat)) : List (Nat × Nat) :=
  (sortedSizes sizes).filter fun s =>
    decide (s.1 ≤ im.width ∧ s.2 ≤ im.height ∧ s.1 ≤ 256 ∧ s.2 ≤ 256)

/-- Models the frame construction of Pillow IcoImagePlugin save: the source
image itself for its own size, a LANCZOS thumbnail for every other retained
size. -/
def icoFrames (im : Image) (sizes : List (Nat × Nat)) : List Image :=
  (icoFrameSizes im sizes).map fun s =>
    if s.1 = im.width ∧ s.2 = im.height then im
    else Image.resized im s.1 s.2 Filter.lanczos

/-- Models PIL img.save with format ICO: the ICO magic, the frame count, a
directory of frame dimensions, then the frame pixel data. -/
def encodeICO (im : Image) (sizes : List (Nat × Nat)) : List Nat :=
  let fs := icoFrames im sizes
  0 :: 0 :: 1 :: 0 :: fs.length ::
    ((fs.flatMap fun f => [f.width, f.height]) ++ fs.flatMap pixelBytes)

/-- Reads n directory entries of an encoded ICO. -/
def readSizes : Nat → List Nat → List (Nat × Nat)
  | 0, _ => []
  | n + 1, w :: h :: rest => (w, h) :: readSizes n rest
  | _ + 1, _ => []

/-- Decodes the frame dimensions exposed by an encoded ICO container. -/
def decodeIcoSizes (bytes : List Nat) : Option (List (Nat × Nat)) :=
  match bytes with
  | 0 :: 0 :: 1 :: 0 :: n :: rest => some (readSizes n rest)
  | _ => none

/-- create_ico_data of the script: build the 16x16 icon, derive a 32x32
LANCZOS resize (which is never handed to the encoder), and save the 16x16
image as an ICO requesting sizes (16, 16) and (32, 32). -/
def create_ico_data : List Nat :=
  let img16 := create_favicon
  let img32 := Image.resized img16 32 32 Filter.lanczos
  encodeICO img16 [(16, 16), (32, 32)]

/-- Modelled from the claim C10: create_ico_data with the dead resize step
removed, to be compared with the original. -/
def create_ico_data_without_resize : List Nat :=
  let img16 := create_favicon
  encodeICO img16 [(16, 16), (32, 32)]

/-- A Python-level error the script can encounter: a failed import of PIL
or an OSError while writing the file at the given path. -/
inductive PyError
  | importError
  | osError (path : String)
deriving DecidableEq, Repr

/-- The environment of one run: whether the PIL import succeeds, which file
writes the filesystem accepts, and ambient state (clock, entropy) that the
script never reads. -/
structure Env where
  pilAvailable : Bool
  writeOk : String → Bool
  sysTime : Nat
  randSeed : Nat

/-- Outcome of the try block: files successfully written (name and bytes),
lines printed, and the error that escaped the block, if any. -/
structure TryResult where
  files : List (String × List Nat)
  lines : List String
  err : Option PyError
deriving Repr

/-- Outcome of the whole process: files written, console lines, and the
unhandled error terminating the process, if any. -/
structure RunResult where
  files : List (String × List Nat)
  lines : List String
  error : Option PyError
deriving Repr

/-- The body of the try block of the script main section: write the ICO
bytes, print the first success line, then write the two PNGs and print the
second success line; a rejected write raises an OSError that aborts the
rest of the block, keeping the lines already printed and files already
written. -/
def tryBody (env : Env) : TryResult :=
  let ico_data := create_ico_data
  if env.writeOk "favicon.ico" then
    let files1 := [("favicon.ico", ico_data)]
    let lines1 := ["favicon.ico created successfully!"]
    let img := create_favicon
    if env.writeOk "favicon-16x16.png" then
      let files2 := files1 ++ [("favicon-16x16.png", encodePNG img)]
      if env.writeOk "favicon-32x32.png" then
        { files := files2 ++
            [("favicon-32x32.png",
              encodePNG (Image.resized img 32 32 Filter.lanczos))],
          lines := lines1 ++ ["PNG versions created successfully!"],
          err := none }
      else
        { files := files2, lines := lines1,
          err := some (PyError.osError "favicon-32x32.png") }
    else
      { files := files1, lines := lines1,
        err := some (PyError.osError "favicon-16x16.png") }
  else
    { files := [], lines := [], err := some (PyError.osError "favicon.ico") }

/-- The two fallback lines of the except ImportError handler. -/
def fallbackLines : List String :=
  ["PIL/Pillow not available. Creating a simple HTML-based solution...",
   "Use the favicon-generator.html file to create favicon manually."]

/-- The whole module run.  Line 1 of the script imports PIL outside any
try block, so an unavailable imaging library terminates the process with an
unhandled ImportError before the main section runs.  Otherwise the try
block runs; its except clause catches only ImportError, printing the two
fallback lines, and re-raises nothing else, so any other error escapes. -/
def runModule (env : Env) : RunResult :=
  if env.pilAvailable then
    let t := tryBody env
    match t.err with
    | some PyError.importError =>
      { files := t.files, lines := t.lines ++ fallbackLines, error := none }
    | e => { files := t.files, lines := t.lines, error := e }
  else
    { files := [], lines := [], error := some PyError.importError }

/-- An environment where PIL loads and every write succeeds. -/
def env0 : Env :=
  { pilAvailable := true, writeOk := fun _ => true, sysTime := 0, randSeed := 0 }

/-- An environment where the PIL import fails. -/
def envNoPil : Env :=
  { pilAvailable := false, writeOk := fun _ => true, sysTime := 0, randSeed := 0 }

/-- An environment where PIL loads but the filesystem rejects every write. -/
def envWriteFail : Env :=
  { pilAvailable := true, writeOk := fun _ => false, sysTime := 0, randSeed := 0 }

/-- Every pixel painted by a list of primitives is either the background
color or the fill of one of the primitives. -/
theorem paint_mem (prims : List Primitive) (bg : RGBA) (x y : Nat) :
    paint prims bg x y ∈ bg :: prims.map Primitive.fill := by
  induction prims generalizing bg with
  | nil => simp [paint]
  | cons p ps ih =>
    have h := ih (if p.covers x y then p.fill else bg)
    rcases List.mem_cons.mp h with h1 | h1
    · show paint ps (if p.covers x y then p.fill else bg) x y ∈ _
      rw [h1]
      cases hc : p.covers x y <;> simp [hc]
    · show paint ps (if p.covers x y then p.fill else bg) x y ∈ _
      simp only [List.map_cons, List.mem_cons]
      right; right; exact h1

/-- Every pixel of the base icon is one of the five color constants of the
script. -/
theorem pix_mem_codePalette5 (x y : Nat) :
    Image.pix create_favicon x y ∈ codePalette5 := by
  have h : paint faviconPrims ⟨45, 55, 72, 255⟩ x y ∈
      (⟨45, 55, 72, 255⟩ : RGBA) :: faviconPrims.map Primitive.fill :=
    paint_mem faviconPrims ⟨45, 55, 72, 255⟩ x y
  have sub : ∀ c ∈ (⟨45, 55, 72, 255⟩ : RGBA) :: faviconPrims.map Primitive.fill,
      c ∈ codePalette5 := by
    intro c hc
    fin_cases hc <;> simp [codePalette5, Primitive.fill]
  exact sub _ h

/-- C1: the claim says a run without the imaging capability writes zero
files and prints the two fallback lines without crashing.  The code
disagrees: the PIL import on line 1 sits outside the try block, so the run
terminates with an unhandled ImportError, having printed nothing and
written nothing — the except ImportError handler is unreachable. -/
theorem c1_missing_pil_crashes_without_fallback :
    runModule envNoPil =
      { files := [], lines := [], error := some PyError.importError } ∧
    (runModule envNoPil).lines ≠ fallbackLines := by
  constructor
  · rfl
  · intro h
    simp [runModule, envNoPil, fallbackLines] at h

/-- C2: the claim says the written favicon.ico decodes to two frames, at
16x16 and 32x32.  The code disagrees: the 32x32 derived image is never
passed to the encoder, and the Pillow ICO save path drops every requested
size larger than the 16x16 source image, so the container decodes to
exactly one frame, at 16x16. -/
theorem c2_ico_decodes_to_single_16_frame :
    decodeIcoSizes create_ico_data = some [(16, 16)] ∧
    icoFrameSizes create_favicon [(16, 16), (32, 32)] = [(16, 16)] := by
  exact ⟨rfl, rfl⟩

/-- C3 counterexample: the fills of the primitives of create_favicon are
not all contained in the four-color palette named by the spec — the two
signal-wave arcs use a fifth color, green (72, 187, 120, 255). -/
theorem c3_counterexample :
    ((faviconPrims.map Primitive.fill).all fun c => specPalette4.contains c)
      = false := by
  decide

/-- C3 (amended): the palette of the program is five fixed RGBA constants —
the four the spec names plus the signal-wave green — and every primitive
fill, the canvas background, and hence every pixel of the base canvas, uses
one of these five. -/
theorem c3_palette_has_five_colors :
    ((faviconPrims.map Primitive.fill).all fun c => codePalette5.contains c)
      = true ∧
    codePalette5.contains ⟨45, 55, 72, 255⟩ = true ∧
    codePalette5.length = 5 ∧
    ∀ x y : Fin 16, Image.pix create_favicon x y ∈ codePalette5 := by
  refine ⟨by decide, by decide, by decide, ?_⟩
  intro x y
  exact pix_mem_codePalette5 x y

/-- C4: create_favicon takes no inputs and is the 16x16 canvas filled with
the background slate, painted in source order by exactly one rectangle, one
ellipse, four further ellipses, two lines and two arcs, all with literal
constants; every pixel of the result is defined, being the background color
or the fill of one of those primitives. -/
theorem c4_base_icon_construction :
    Image.width create_favicon = 16 ∧
    Image.height create_favicon = 16 ∧
    create_favicon = Image.canvas 16 16 ⟨45, 55, 72, 255⟩ faviconPrims ∧
    faviconPrims.map Primitive.kind =
      [PrimKind.rectangle, PrimKind.ellipse, PrimKind.ellipse,
       PrimKind.ellipse, PrimKind.ellipse, PrimKind.ellipse,
       PrimKind.line, PrimKind.line, PrimKind.arc, PrimKind.arc] ∧
    ∀ x y : Fin 16, Image.pix create_favicon x y ∈
      (⟨45, 55, 72, 255⟩ : RGBA) :: faviconPrims.map Primitive.fill := by
  refine ⟨rfl, rfl, rfl, by decide, ?_⟩
  intro x y
  exact paint_mem faviconPrims ⟨45, 55, 72, 255⟩ x y

/-- C5: in every run where PIL loads and all writes succeed, the third file
written is favicon-32x32.png whose content is the encoding of the 16x16
base canvas resampled to 32x32 with the LANCZOS filter — not an
independently drawn canvas — and that derived canvas is exactly 32x32. -/
theorem c5_png32_is_lanczos_resample_of_base (env : Env)
    (hp : env.pilAvailable = true)
    (hw : ∀ n, env.writeOk n = true) :
    (runModule env).files =
      [("favicon.ico", create_ico_data),
       ("favicon-16x16.png", encodePNG create_favicon),
       ("favicon-32x32.png",
        encodePNG (Image.resized create_favicon 32 32 Filter.lanczos))] ∧
    (Image.resized create_favicon 32 32 Filter.lanczos).width = 32 ∧
    (Image.resized create_favicon 32 32 Filter.lanczos).height = 32 ∧
    decodePngSize
      (encodePNG (Image.resized create_favicon 32 32 Filter.lanczos)) =
      some (32, 32) := by
  refine ⟨?_, rfl, rfl, rfl⟩
  simp [runModule, tryBody, hp, hw "favicon.ico", hw "favicon-16x16.png",
        hw "favicon-32x32.png"]

/-- C5 witness: the theorem applied to the concrete environment where PIL
loads and every write succeeds. -/
theorem c5_witness :
    (runModule env0).files =
      [("favicon.ico", create_ico_data),
       ("favicon-16x16.png", encodePNG create_favicon),
       ("favicon-32x32.png",
        encodePNG (Image.resized create_favicon 32 32 Filter.lanczos))] ∧
    (Image.resized create_favicon 32 32 Filter.lanczos).width = 32 ∧
    (Image.resized create_favicon 32 32 Filter.lanczos).height = 32 ∧
    decodePngSize
      (encodePNG (Image.resized create_favicon 32 32 Filter.lanczos)) =
      some (32, 32) :=
  c5_png32_is_lanczos_resample_of_base env0 rfl (fun _ => rfl)

/-- C6: the pipeline is deterministic — two runs that agree on the
capability and on the filesystem answers produce identical outcomes, in
particular byte-for-byte identical file contents, whatever the clock and
entropy of the environment, since the script never reads them. -/
theorem c6_deterministic (p : Bool) (w : String → Bool) (t1 r1 t2 r2 : Nat) :
    runModule { pilAvailable := p, writeOk := w, sysTime := t1, randSeed := r1 } =
    runModule { pilAvailable := p, writeOk := w, sysTime := t2, randSeed := r2 } :=
  rfl

/-- C7: a filesystem failure during a write is caught nowhere — the except
clause of the script handles only ImportError — so the OSError escapes the
top-level block and ends the process with that visible error, the fallback
lines never being printed. -/
theorem c7_write_error_propagates (env : Env) (p : String)
    (hp : env.pilAvailable = true)
    (he : (tryBody env).err = some (PyError.osError p)) :
    (runModule env).error = some (PyError.osError p) ∧
    (runModule env).lines = (tryBody env).lines := by
  simp only [runModule, hp, if_true, he]
  exact ⟨trivial, trivial⟩

/-- C7 witness: the theorem applied to the concrete environment where the
filesystem rejects every write, so the very first write already fails. -/
theorem c7_witness :
    (runModule envWriteFail).error = some (PyError.osError "favicon.ico") ∧
    (runModule envWriteFail).lines = (tryBody envWriteFail).lines :=
  c7_write_error_propagates envWriteFail "favicon.ico" rfl rfl

/-- C8: the claim says every run shows exactly one of: two success lines,
two fallback lines, or an unhandled write error.  The code disagrees: when
the imaging capability is unavailable, the console shows zero lines and the
run dies of an unhandled ImportError — none of the three outcomes, and in
particular not the two fallback lines the spec assigns to this scenario. -/
theorem c8_console_outcome_not_in_claimed_set :
    (runModule envNoPil).lines = [] ∧
    (runModule envNoPil).error = some PyError.importError ∧
    (runModule envNoPil).lines ≠
      ["favicon.ico created successfully!",
       "PNG versions created successfully!"] ∧
    (runModule envNoPil).lines ≠ fallbackLines ∧
    (runModule envNoPil).error ≠ some (PyError.osError "favicon.ico") := by
  refine ⟨rfl, rfl, ?_, ?_, ?_⟩ <;>
    simp [runModule, envNoPil, fallbackLines]

/-- C9: every color constant of create_favicon — the background fill and
the fill of each of the ten primitives — has alpha exactly 255, and
therefore every pixel of the base 16x16 canvas is fully opaque. -/
theorem c9_base_canvas_fully_opaque :
    (45, 55, 72, 255).2.2.2 = 255 ∧
    (faviconPrims.all fun p => p.fill.a == 255) = true ∧
    ∀ x y : Fin 16, (Image.pix create_favicon x y).a = 255 := by
  refine ⟨rfl, by decide, ?_⟩
  intro x y
  have h := pix_mem_codePalette5 x y
  have sub : ∀ c ∈ codePalette5, c.a = 255 := by
    intro c hc
    fin_cases hc <;> rfl
  exact sub _ h

/-- C10: the bytes of create_ico_data depend on the 16x16 base image alone.
The 32x32 LANCZOS resize computed inside the function is never passed to
the ICO encoder, so the variant with the resize step removed returns
identical bytes. -/
theorem c10_resize_step_is_dead_code :
    create_ico_data = create_ico_data_without_resize :=
  rfl

end Favicon
